import Mathlib

/-
  Verification development for the workout-planning core
  (StudyEngine v3.1, SessionEngine v3.0, BiomechanicalEngine v2.1,
  TrainingKnowledge v2.0.0).

  Shallow embedding conventions:
  * JS numbers holding integers are modelled as `Int` (all arithmetic that the
    program performs on them is exact integer arithmetic in the reachable range);
    genuinely fractional values (volume multipliers, 0.92 thresholds) are `ℚ`.
  * `floor(b * 1.2)` on the small integers the program stores coincides with the
    exact rational `⌊6·b/5⌋`, which is how it is modelled (`floor12`).
  * JS `x || d` on a numeric field (0/undefined falls back to `d`) is `jsOrI`;
    on an optional field it is `Option.getD` composed with the zero test.
  * Calendar day keys ("YYYY-MM-DD" strings parsed into `Date`s) are modelled as
    the day number (days since an epoch); the program only ever takes day
    differences, which this representation preserves.
  * JS `%` is truncated remainder, i.e. `Int.tmod`.
  * `Math.round` is `⌊x + 1/2⌋` (round half toward +∞), i.e. `jround`.
  * The 12-week S-curve multiplier (`volumeMultiplier`) uses `Math.exp`, a
    transcendental floating-point computation; it is kept abstract as a
    function parameter `vm : Int → ℚ`.  Every theorem below holds for every
    choice of that function, in particular for the one the program computes.
-/

namespace Workout

/-- JS `x || d` for a possibly-missing number: `undefined`/`null` and `0` are
falsy and fall back to the default. -/
def jsOrI (v : Option Int) (d : Int) : Int :=
  match v with
  | none => d
  | some x => if x = 0 then d else x

/-- JS `x || d` for a number that is always present (0 is falsy). -/
def jsOr0 (v d : Int) : Int := if v = 0 then d else v

/-- JS `s || d` for a possibly-missing string ("" is falsy). -/
def jsOrS (v : Option String) (d : String) : String :=
  match v with
  | none => d
  | some s => if s = "" then d else s

/-- `clamp(n, a, b) = Math.max(a, Math.min(b, n))`. -/
def clampI (n a b : Int) : Int := max a (min b n)

/-- Floor of a rational, computed on the normalized fraction (`Rat` keeps a
positive denominator, so floor is the floor division of numerator by
denominator). -/
def ratFloor (q : ℚ) : Int := q.num.fdiv (q.den : Int)

/-- JS `Math.round`: round half toward +∞. -/
def jround (q : ℚ) : Int := ratFloor (q + 1/2)

/-- `Math.floor(b * 1.2)` for the integer magnitudes this program stores:
exactly `⌊6·b/5⌋` (the IEEE-double computation agrees on this range). -/
def floor12 (b : Int) : Int := ratFloor ((6 * b : ℚ) / 5)

/- ==========================================================
   StudyEngine v3.1 — state, context, targets, result folding
   ========================================================== -/

/-- `REP_MENU = [8, 10, 12, 14, 16, 18, 20]`. -/
def REP_MENU : List Int := [8, 10, 12, 14, 16, 18, 20]

/-- `BAND_MENU = [15, 25, 35]`. -/
def BAND_MENU : List Int := [15, 25, 35]

/-- One rep-based family progression (`{ repIndex, band, setBase }`). -/
structure FamilyProg where
  repIndex : Int
  band : Int
  setBase : Int
  deriving DecidableEq, Repr

/-- The time-based core progression (`{ holdSeconds, setBase }`). -/
structure CoreProg where
  holdSeconds : Int
  setBase : Int
  deriving DecidableEq, Repr

/-- The `prog` record of the persisted state. -/
structure ProgMap where
  pull : FamilyProg
  push : FamilyProg
  posterior : FamilyProg
  core : CoreProg
  deriving DecidableEq, Repr

/-- `AthleteProgressionState` as persisted by StudyEngine v3.1.
`lastCompletedDay` is `none` when the JS field is `null`. -/
structure StudyState where
  version : String
  week : Int
  sessionInWeek : Int
  streak : Int
  lastCompletedDay : Option Int
  hardSessionsInRow : Int
  deloadArmed : Bool
  prog : ProgMap
  deriving DecidableEq, Repr

/-- `defaultState()`. -/
def defaultState : StudyState :=
  { version := "3.1"
  , week := 1
  , sessionInWeek := 0
  , streak := 0
  , lastCompletedDay := none
  , hardSessionsInRow := 0
  , deloadArmed := false
  , prog :=
    { pull := { repIndex := 1, band := 15, setBase := 3 }
    , push := { repIndex := 1, band := 15, setBase := 3 }
    , posterior := { repIndex := 1, band := 15, setBase := 2 }
    , core := { holdSeconds := 25, setBase := 2 } } }

/-- The `summary` sub-record of a session result.  Each family's reps can come
from either of two field spellings (`pullRepsDone || pull || 0`). -/
structure Summary where
  pullRepsDone : Option Int := none
  pushRepsDone : Option Int := none
  posteriorRepsDone : Option Int := none
  pull : Option Int := none
  push : Option Int := none
  posterior : Option Int := none
  core : Option Int := none
  deriving DecidableEq, Repr

/-- A `SessionResult` as consumed by `applySessionResult`.  The `dayKey` is the
day number of the completed session (the JS `r.dayKey || todayISO()` fallback
to the wall clock is outside the model: the callers in this repository always
pass a day key). -/
structure SessionResult where
  dayKey : Int
  rpe3 : Option Int := none
  summary : Summary := {}
  deriving DecidableEq, Repr

/-- `s.pullRepsDone || s.pull || 0` (and the push/posterior analogues). -/
def repsOf (a b : Option Int) : Int := jsOrI a (jsOrI b 0)

/-- `progressBandIfPossible(prog)`: promote the band to the next menu entry and
reset `repIndex` to 2 (the 12-rep entry); returns whether it upgraded. -/
def progressBandIfPossible (prog : FamilyProg) : FamilyProg × Bool :=
  match BAND_MENU.indexOf? prog.band with
  | some i =>
      if i + 1 < BAND_MENU.length then
        ({ prog with band := BAND_MENU.getD (i + 1) 15, repIndex := 2 }, true)
      else (prog, false)
  | none => (prog, false)

/-- `advanceFamily` for a rep-based family (`pull`/`push`/`posterior`).
`deloadArmed` is the value of the flag at the time of the call (after the
arming step earlier in `applySessionResult`). -/
def advanceFamilyReps (deloadArmed : Bool) (rpe3 : Int)
    (prog : FamilyProg) (repsDone : Int) : FamilyProg :=
  if deloadArmed then
    { prog with repIndex := clampI (prog.repIndex - 1) 0 (REP_MENU.length - 1) }
  else
    let target := REP_MENU.getD (clampI prog.repIndex 0 (REP_MENU.length - 1)).toNat 0
    let success := repsDone ≥ target ∧ rpe3 ≠ 3
    let fail := repsDone < max 6 (target - 4) ∨ rpe3 = 3
    if success then
      if prog.repIndex < REP_MENU.length - 1 then
        { prog with repIndex := prog.repIndex + 1 }
      else
        let (upgradedProg, upgraded) := progressBandIfPossible prog
        if upgraded then upgradedProg
        else { prog with setBase := clampI (prog.setBase + 1) 2 5 }
    else if fail then
      { prog with repIndex := clampI (prog.repIndex - 1) 0 (REP_MENU.length - 1) }
    else prog

/-- `advanceFamily("core", …)`: time-based, ±5 s clamped to [15, 60]. -/
def advanceCore (rpe3 : Int) (prog : CoreProg) : CoreProg :=
  if rpe3 ≠ 3 then
    { prog with holdSeconds := clampI (jsOr0 prog.holdSeconds 25 + 5) 15 60 }
  else
    { prog with holdSeconds := clampI (jsOr0 prog.holdSeconds 25 - 5) 15 60 }

/-- `StudyEngine.applySessionResult(state, result)`, step for step:
streak update, hard-row tracking, deload arming, per-family advancement,
posterior clamp, week advancement, and the final `deloadArmed` clear. -/
def applySessionResult (st : StudyState) (r : SessionResult) : StudyState :=
  -- streak
  let streak' :=
    match st.lastCompletedDay with
    | some last =>
        let diff := r.dayKey - last
        if diff = 1 then st.streak + 1
        else if diff > 1 then 1
        else st.streak
    | none => 1
  -- hard sessions row
  let rpe3 := clampI (jsOrI r.rpe3 2) 1 3
  let hardRow := if rpe3 = 3 then st.hardSessionsInRow + 1 else 0
  -- deload arming (the flag is cleared again at the end of this same call)
  let armed1 := if hardRow ≥ 2 then true else st.deloadArmed
  -- per-family advancement
  let pull' := advanceFamilyReps armed1 rpe3 st.prog.pull
    (repsOf r.summary.pullRepsDone r.summary.pull)
  let push' := advanceFamilyReps armed1 rpe3 st.prog.push
    (repsOf r.summary.pushRepsDone r.summary.push)
  let post' := advanceFamilyReps armed1 rpe3 st.prog.posterior
    (repsOf r.summary.posteriorRepsDone r.summary.posterior)
  let core' := advanceCore rpe3 st.prog.core
  -- posterior constraint (global)
  let maxPosterior := max 1 (floor12 pull'.setBase)
  let post'' := { post' with setBase := min post'.setBase maxPosterior }
  -- advance week every 3 sessions
  let siw' := (st.sessionInWeek + 1).tmod 3
  let week' := if siw' = 0 then st.week + 1 else st.week
  -- consume deload if it was armed
  let armed2 := if armed1 then false else armed1
  { version := st.version
  , week := week'
  , sessionInWeek := siw'
  , streak := streak'
  , lastCompletedDay := some r.dayKey
  , hardSessionsInRow := hardRow
  , deloadArmed := armed2
  , prog := { pull := pull', push := push', posterior := post'', core := core' } }

/- ==========================================================
   StudyEngine v3.1 — context construction and targets
   ========================================================== -/

/-- The raw user flags handed to `getContextForToday` (fields may be absent). -/
structure UserFlags where
  minutes : Option Int := none
  runDay : Bool := false
  fasting : Bool := false
  rpe3 : Option Int := none
  noAnchors : Option Bool := none
  equipment : Option (List String) := none
  deriving DecidableEq, Repr

/-- The `SessionContext` produced by `getContextForToday`. -/
structure Ctx where
  dayKey : Int
  minutes : Int
  runDay : Bool
  fasting : Bool
  rpe3 : Int
  noAnchors : Bool
  equipment : List String
  deriving DecidableEq, Repr

/-- `StudyEngine.getContextForToday(userFlags)`.  `today` stands for the wall
clock's `todayISO()`. -/
def getContextForToday (today : Int) (flags : UserFlags) : Ctx :=
  { dayKey := today
  , minutes :=
      match flags.minutes with
      | some m => if m = 35 ∨ m = 30 ∨ m = 25 then m else 25
      | none => 25
  , runDay := flags.runDay
  , fasting := flags.fasting
  , rpe3 := clampI (jsOrI flags.rpe3 2) 1 3
  , noAnchors := flags.noAnchors.getD true
  , equipment := flags.equipment.getD ["bodyweight", "band", "miniloop", "rope", "stick"] }

/-- `StudyEngine.getRestSeconds(rpe3, deload)`.  TrainingKnowledge v2.0.0 does
not define `modifiers.restSeconds` (its `modifiers` record has only the
`runDay`/`fasting` data), so the built-in lookup always applies. -/
def getRestSeconds (rpe3 : Int) (deload : Bool) : Int :=
  if deload then 25
  else if rpe3 = 1 then 25
  else if rpe3 = 2 then 35
  else 45

/-- Per-family strength target `{ sets, reps, band, rest }`.  (The constant
`repMenu`/`bandMenu` copies that `getTargets` attaches carry no state and are
not represented.) -/
structure StrengthTarget where
  sets : Int
  reps : Int
  band : Int
  rest : Int
  deriving DecidableEq, Repr

/-- The `TargetSet` returned by `getTargets`.  `multMilli` is
`Number(mult.toFixed(3))` represented in thousandths. -/
structure Targets where
  week : Int
  sessionInWeek : Int
  deload : Bool
  multMilli : Int
  warmupCycles : Int
  mobilityCount : Int
  pull : StrengthTarget
  push : StrengthTarget
  posterior : StrengthTarget
  coreSets : Int
  coreSeconds : Int
  coreRest : Int
  cooldownCount : Int
  deriving DecidableEq, Repr

/-- The body of `StudyEngine.getTargets(state, ctx)` over the context fields it
reads (`minutes`, `runDay`, `fasting`, `rpe3`; the day key, anchors flag and
equipment list are never consulted).  `vm` is the abstracted
`volumeMultiplier` S-curve (see the header note on floating point). -/
def getTargetsFrom (vm : Int → ℚ) (st : StudyState)
    (minutes : Int) (runDay fasting : Bool) (rpe3 : Int) : Targets :=
  let mult0 := vm st.week
  let mult1 := if minutes ≤ 25 then mult0 * (95/100) else mult0
  let mult2 := if minutes ≥ 35 then mult1 * (105/100) else mult1
  let mult3 := if runDay then mult2 * (92/100) else mult2
  let mult4 := if fasting then mult3 * (88/100) else mult3
  let weekBoundaryDeload := st.week.tmod 4 = 0 ∧ st.sessionInWeek = 0
  let deload := st.deloadArmed ∨ weekBoundaryDeload
  let mult5 := if deload then mult4 * (70/100) else mult4
  let mult := if rpe3 = 3 then mult5 * (93/100) else mult5
  let pullSets := clampI (jround ((st.prog.pull.setBase : ℚ) * mult)) 2 6
  let pushSets := clampI (jround ((st.prog.push.setBase : ℚ) * mult)) 2 6
  let posteriorSets0 := clampI (jround ((st.prog.posterior.setBase : ℚ) * mult)) 1 4
  let posteriorSets := min posteriorSets0 (max 1 (floor12 pullSets))
  let coreSets := clampI (jround ((st.prog.core.setBase : ℚ) * mult)) 1 4
  let pullReps := REP_MENU.getD (clampI st.prog.pull.repIndex 0 (REP_MENU.length - 1)).toNat 0
  let pushReps := REP_MENU.getD (clampI st.prog.push.repIndex 0 (REP_MENU.length - 1)).toNat 0
  let postReps := REP_MENU.getD (clampI st.prog.posterior.repIndex 0 (REP_MENU.length - 1)).toNat 0
  let baseHold := jsOr0 st.prog.core.holdSeconds 25
  let hold := clampI (jround ((baseHold : ℚ) * (if deload then 85/100 else 1)
    * (if fasting then 95/100 else 1))) 15 60
  let pullBand := if st.prog.pull.band ∈ BAND_MENU then st.prog.pull.band else 15
  let pushBand := if st.prog.push.band ∈ BAND_MENU then st.prog.push.band else 15
  let postBand := if st.prog.posterior.band ∈ BAND_MENU then st.prog.posterior.band else 15
  let rest := getRestSeconds rpe3 deload
  { week := st.week
  , sessionInWeek := st.sessionInWeek
  , deload := deload
  , multMilli := jround (mult * 1000)
  , warmupCycles := if minutes ≥ 35 then 2 else 1
  , mobilityCount := 2
  , pull := { sets := pullSets, reps := pullReps, band := pullBand, rest := rest }
  , push := { sets := pushSets, reps := pushReps, band := pushBand, rest := rest }
  , posterior := { sets := posteriorSets, reps := postReps, band := postBand, rest := rest }
  , coreSets := coreSets
  , coreSeconds := hold
  , coreRest := 15
  , cooldownCount := 1 }

/-- `StudyEngine.getTargets(state, ctx)`. -/
def getTargets (vm : Int → ℚ) (st : StudyState) (c : Ctx) : Targets :=
  getTargetsFrom vm st c.minutes c.runDay c.fasting c.rpe3

/- ==========================================================
   StudyEngine v3.1 — persistence (save / load round trip)
   ========================================================== -/

/-- The persisted shape of the state after `JSON.parse`: each field is either
present with the right type (`some`) or missing / of the wrong type (`none`),
which is what `loadState`'s `typeof`-checks and `||`-defaults discriminate.
`JSON.stringify`/`JSON.parse` is faithful on these plain records. -/
structure PersistedProg where
  pull : Option FamilyProg
  push : Option FamilyProg
  posterior : Option FamilyProg
  core : Option CoreProg
  deriving DecidableEq, Repr

/-- The persisted top-level blob (see `PersistedProg`). -/
structure PersistedState where
  version : Option String
  week : Option Int
  sessionInWeek : Option Int
  streak : Option Int
  lastCompletedDay : Option Int
  hardSessionsInRow : Option Int
  deloadArmed : Option Bool
  prog : Option PersistedProg
  deriving DecidableEq, Repr

/-- `saveState` followed by `JSON.parse`: every field of a well-formed state
serializes and parses back unchanged. -/
def encodeState (st : StudyState) : PersistedState :=
  { version := some st.version
  , week := some st.week
  , sessionInWeek := some st.sessionInWeek
  , streak := some st.streak
  , lastCompletedDay := st.lastCompletedDay
  , hardSessionsInRow := some st.hardSessionsInRow
  , deloadArmed := some st.deloadArmed
  , prog := some (
    { pull := some st.prog.pull
    , push := some st.prog.push
    , posterior := some st.prog.posterior
    , core := some st.prog.core : PersistedProg }) }

/-- `StudyEngine.loadState()` applied to a parsed blob: missing `prog` yields
the default state, otherwise each field gets its forward-safe default. -/
def loadState (p : PersistedState) : StudyState :=
  match p.prog with
  | none => defaultState
  | some pr =>
      { version := jsOrS p.version "3.1"
      , week := p.week.getD 1
      , sessionInWeek := p.sessionInWeek.getD 0
      , streak := p.streak.getD 0
      , lastCompletedDay := p.lastCompletedDay
      , hardSessionsInRow := p.hardSessionsInRow.getD 0
      , deloadArmed := p.deloadArmed.getD false
      , prog :=
        { pull := pr.pull.getD { repIndex := 1, band := 15, setBase := 3 }
        , push := pr.push.getD { repIndex := 1, band := 15, setBase := 3 }
        , posterior := pr.posterior.getD { repIndex := 1, band := 15, setBase := 2 }
        , core := pr.core.getD { holdSeconds := 25, setBase := 2 } } }

/- ==========================================================
   Projection lemmas for applySessionResult
   ========================================================== -/

/-- Invariant I1 (spine-safety cap) on the persisted state. -/
def invariantI1 (st : StudyState) : Prop :=
  st.prog.posterior.setBase ≤ max 1 (floor12 st.prog.pull.setBase)

theorem apply_sessionInWeek (st : StudyState) (r : SessionResult) :
    (applySessionResult st r).sessionInWeek = (st.sessionInWeek + 1).tmod 3 := rfl

theorem apply_week (st : StudyState) (r : SessionResult) :
    (applySessionResult st r).week =
      if (st.sessionInWeek + 1).tmod 3 = 0 then st.week + 1 else st.week := rfl

theorem apply_I1 (st : StudyState) (r : SessionResult) :
    invariantI1 (applySessionResult st r) := by
  simp only [invariantI1, applySessionResult]
  exact min_le_right _ _

/- ==========================================================
   Claim theorems: progression state machine
   ========================================================== -/

/-- C1: for every sequence of session results applied from the default state,
after each call to `applySessionResult` the persisted state satisfies
Invariant I1: `posterior.setBase ≤ max(1, ⌊pull.setBase × 1.2⌋)`. -/
theorem applyResult_preserves_posterior_cap
    (rs : List SessionResult) (r : SessionResult) :
    invariantI1 (applySessionResult (rs.foldl applySessionResult defaultState) r) :=
  apply_I1 _ r

/-- C10: the state returned by `applySessionResult` always has
`deloadArmed = false` — the flag set when `hardSessionsInRow` reaches 2 is
cleared again by the unconditional consume step at the end of the same call. -/
theorem applyResult_always_clears_deload (st : StudyState) (r : SessionResult) :
    (applySessionResult st r).deloadArmed = false := by
  simp only [applySessionResult]
  rcases h : (if (if clampI (jsOrI r.rpe3 2) 1 3 = 3 then st.hardSessionsInRow + 1 else 0) ≥ 2
      then true else st.deloadArmed) with _ | _ <;> simp [h]

/-- C4 (failing input): from the default state, two consecutive "hard"
results leave `hardSessionsInRow = 2` but the returned state already has
`deloadArmed = false` — the arming call itself consumes the flag, so it is
never observably true between the second and third calls. -/
theorem two_hard_results_do_not_leave_deload_armed :
    (applySessionResult defaultState { dayKey := 100, rpe3 := some 3 }).hardSessionsInRow = 1 ∧
    (applySessionResult (applySessionResult defaultState { dayKey := 100, rpe3 := some 3 })
        { dayKey := 101, rpe3 := some 3 }).hardSessionsInRow = 2 ∧
    (applySessionResult (applySessionResult defaultState { dayKey := 100, rpe3 := some 3 })
        { dayKey := 101, rpe3 := some 3 }).deloadArmed = false := by
  decide

/-- C5: from a state with `sessionInWeek = 0`, three `applySessionResult`
calls (day keys advancing by one day each) increment `week` by exactly one,
with `sessionInWeek` returning to 0; the first and second calls leave `week`
unchanged. -/
theorem week_advances_after_exactly_three_results
    (st : StudyState) (r1 r2 r3 : SessionResult)
    (h0 : st.sessionInWeek = 0)
    (_hd2 : r2.dayKey = r1.dayKey + 1)
    (_hd3 : r3.dayKey = r2.dayKey + 1) :
    (applySessionResult st r1).week = st.week ∧
    (applySessionResult (applySessionResult st r1) r2).week = st.week ∧
    (applySessionResult (applySessionResult (applySessionResult st r1) r2) r3).week
      = st.week + 1 ∧
    (applySessionResult (applySessionResult (applySessionResult st r1) r2) r3).sessionInWeek
      = 0 := by
  have t1 : ((0 : Int) + 1).tmod 3 = 1 := by decide
  have t2 : ((1 : Int) + 1).tmod 3 = 2 := by decide
  have t3 : ((2 : Int) + 1).tmod 3 = 0 := by decide
  have s1 : (applySessionResult st r1).sessionInWeek = 1 := by
    rw [apply_sessionInWeek, h0, t1]
  have s2 : (applySessionResult (applySessionResult st r1) r2).sessionInWeek = 2 := by
    rw [apply_sessionInWeek, s1, t2]
  have s3 : (applySessionResult (applySessionResult (applySessionResult st r1) r2)
      r3).sessionInWeek = 0 := by
    rw [apply_sessionInWeek, s2, t3]
  have w1 : (applySessionResult st r1).week = st.week := by
    rw [apply_week, h0, t1]; norm_num
  have w2 : (applySessionResult (applySessionResult st r1) r2).week = st.week := by
    rw [apply_week, s1, t2, w1]; norm_num
  have w3 : (applySessionResult (applySessionResult (applySessionResult st r1) r2) r3).week
      = st.week + 1 := by
    rw [apply_week, s2, t3, w2]; norm_num
  exact ⟨w1, w2, w3, s3⟩

/-- C5 witness: the week-advancement theorem at the default state with day
keys 0, 1, 2. -/
theorem week_advances_after_exactly_three_results_witness :
    (applySessionResult defaultState { dayKey := 0 }).week = defaultState.week ∧
    (applySessionResult (applySessionResult defaultState { dayKey := 0 })
        { dayKey := 1 }).week = defaultState.week ∧
    (applySessionResult (applySessionResult (applySessionResult defaultState { dayKey := 0 })
        { dayKey := 1 }) { dayKey := 2 }).week = defaultState.week + 1 ∧
    (applySessionResult (applySessionResult (applySessionResult defaultState { dayKey := 0 })
        { dayKey := 1 }) { dayKey := 2 }).sessionInWeek = 0 :=
  week_advances_after_exactly_three_results defaultState
    { dayKey := 0 } { dayKey := 1 } { dayKey := 2 } rfl rfl rfl

/- ==========================================================
   Claim theorems: context construction (duration handling)
   ========================================================== -/

/-- C6 (counterexample): a requested duration of 40 minutes is not rejected
with an error — `getContextForToday` silently substitutes the default 25.
(No `InvalidContext` error exists anywhere in StudyEngine; `getTargets` is a
total function of the state and context.) -/
theorem unsupported_duration_silently_defaulted :
    (getContextForToday 0 { minutes := some 40 }).minutes = 25 ∧
    ¬((40 : Int) = 25 ∨ (40 : Int) = 30 ∨ (40 : Int) = 35) := by
  decide

/-- C6 (amended): the context's duration is always one of 25/30/35, and an
unsupported requested duration is silently replaced by the default 25 at
context construction (`getTargets` itself never fails for any input). -/
theorem context_duration_defaulted_not_rejected (t : Int) (f : UserFlags) :
    ((getContextForToday t f).minutes = 25 ∨ (getContextForToday t f).minutes = 30 ∨
      (getContextForToday t f).minutes = 35) ∧
    (∀ m : Int, f.minutes = some m → ¬(m = 35 ∨ m = 30 ∨ m = 25) →
      (getContextForToday t f).minutes = 25) := by
  refine ⟨?_, ?_⟩
  · rcases hf : f.minutes with _ | m
    · left; simp [getContextForToday, hf]
    · by_cases h : m = 35 ∨ m = 30 ∨ m = 25
      · have hm : (getContextForToday t f).minutes = m := by
          simp [getContextForToday, hf, h]
        rcases h with h | h | h
        · right; right; rw [hm, h]
        · right; left; rw [hm, h]
        · left; rw [hm, h]
      · left; simp [getContextForToday, hf, h]
  · intro m hm hnm
    simp [getContextForToday, hm, hnm]

/-- C6 amended witness: the duration-40 request at a concrete day. -/
theorem context_duration_defaulted_not_rejected_witness :
    (getContextForToday 0 { minutes := some 40 }).minutes = 25 :=
  (context_duration_defaulted_not_rejected 0 { minutes := some 40 }).2 40 rfl (by decide)

/- ==========================================================
   Claim theorems: rep-menu-top advancement (C7)
   ========================================================== -/

/-- The index of the middle entry of the 7-entry rep menu, per the spec's
words ("reset `repIndex` to the middle of the menu"): `7 / 2 = 3`. -/
def repMenuMiddleIndex : Int := (REP_MENU.length : Int) / 2

/-- A pull progression sitting at the top of the rep menu on the lowest band. -/
def bandPromotionState : StudyState :=
  { defaultState with prog :=
    { defaultState.prog with pull := { repIndex := 6, band := 15, setBase := 3 } } }

/-- A successful (non-hard) result completing the 20-rep top target. -/
def successResult20 : SessionResult :=
  { dayKey := 10, rpe3 := some 2, summary := { pull := some 20 } }

/-- A pull progression at the top of the rep menu with resistance maxed. -/
def maxedPullState : StudyState :=
  { defaultState with prog :=
    { defaultState.prog with pull := { repIndex := 6, band := 35, setBase := 3 } } }

theorem advance_top_band15 (rpe reps sb : Int) (h1 : rpe ≠ 3) (h2 : reps ≥ 20) :
    advanceFamilyReps false rpe { repIndex := 6, band := 15, setBase := sb } reps =
      { repIndex := 2, band := 25, setBase := sb } := by
  have i15 : List.indexOf? (15 : Int) [15, 25, 35] = some 0 := by decide
  simp [advanceFamilyReps, progressBandIfPossible, REP_MENU, BAND_MENU, clampI, h1, h2, i15]

theorem advance_top_band25 (rpe reps sb : Int) (h1 : rpe ≠ 3) (h2 : reps ≥ 20) :
    advanceFamilyReps false rpe { repIndex := 6, band := 25, setBase := sb } reps =
      { repIndex := 2, band := 35, setBase := sb } := by
  have i25 : List.indexOf? (25 : Int) [15, 25, 35] = some 1 := by decide
  simp [advanceFamilyReps, progressBandIfPossible, REP_MENU, BAND_MENU, clampI, h1, h2, i25]

theorem advance_top_band35 (rpe reps sb : Int) (h1 : rpe ≠ 3) (h2 : reps ≥ 20) :
    advanceFamilyReps false rpe { repIndex := 6, band := 35, setBase := sb } reps =
      { repIndex := 6, band := 35, setBase := clampI (sb + 1) 2 5 } := by
  have i35 : List.indexOf? (35 : Int) [15, 25, 35] = some 2 := by decide
  simp [advanceFamilyReps, progressBandIfPossible, REP_MENU, BAND_MENU, clampI, h1, h2, i35]

/-- C7 (counterexample): promoting the band on a success at the top of the
rep menu resets `repIndex` to 2 — not to the middle of the 7-entry menu
(index 3) as the claim states. -/
theorem band_promotion_resets_repIndex_to_two :
    (applySessionResult bandPromotionState successResult20).prog.pull.repIndex = 2 ∧
    (applySessionResult bandPromotionState successResult20).prog.pull.band = 25 ∧
    repMenuMiddleIndex = 3 ∧
    (applySessionResult bandPromotionState successResult20).prog.pull.repIndex
      ≠ repMenuMiddleIndex := by
  decide

/-- C7 (amended): for a pull progression at the top of the rep menu, a
successful non-deload result promotes the band to the next menu entry and
resets `repIndex` to 2 (the 12-rep entry, one below the menu's middle), or —
with resistance already maxed — increments `setBase`, capped at 5; from
`setBase = 3` with resistance maxed, three consecutive successes yield 4,
then 5, then 5 (capped). -/
theorem success_at_top_promotes_band_or_increments_sets
    (st : StudyState) (r : SessionResult)
    (hArm : st.deloadArmed = false)
    (hIdx : st.prog.pull.repIndex = 6)
    (hRpe : clampI (jsOrI r.rpe3 2) 1 3 ≠ 3)
    (hReps : repsOf r.summary.pullRepsDone r.summary.pull ≥ 20) :
    ((st.prog.pull.band = 15 →
        (applySessionResult st r).prog.pull =
          { repIndex := 2, band := 25, setBase := st.prog.pull.setBase }) ∧
     (st.prog.pull.band = 25 →
        (applySessionResult st r).prog.pull =
          { repIndex := 2, band := 35, setBase := st.prog.pull.setBase }) ∧
     (st.prog.pull.band = 35 →
        (applySessionResult st r).prog.pull =
          { repIndex := 6, band := 35, setBase := clampI (st.prog.pull.setBase + 1) 2 5 })) ∧
    ((applySessionResult maxedPullState successResult20).prog.pull.setBase = 4 ∧
     (applySessionResult (applySessionResult maxedPullState successResult20)
        { successResult20 with dayKey := 11 }).prog.pull.setBase = 5 ∧
     (applySessionResult (applySessionResult (applySessionResult maxedPullState
        successResult20) { successResult20 with dayKey := 11 })
        { successResult20 with dayKey := 12 }).prog.pull.setBase = 5) := by
  have hpull : (applySessionResult st r).prog.pull
      = advanceFamilyReps
          (if (if clampI (jsOrI r.rpe3 2) 1 3 = 3 then st.hardSessionsInRow + 1 else 0) ≥ 2
            then true else st.deloadArmed)
          (clampI (jsOrI r.rpe3 2) 1 3) st.prog.pull
          (repsOf r.summary.pullRepsDone r.summary.pull) := rfl
  rw [if_neg hRpe] at hpull
  rw [if_neg (show ¬((0 : Int) ≥ 2) by norm_num)] at hpull
  rw [hArm] at hpull
  refine ⟨⟨?_, ?_, ?_⟩, by decide⟩
  all_goals intro hband
  · have : st.prog.pull = { repIndex := 6, band := 15, setBase := st.prog.pull.setBase } := by
      cases hp : st.prog.pull
      simp_all
    rw [hpull, this, advance_top_band15 _ _ _ hRpe hReps]
  · have : st.prog.pull = { repIndex := 6, band := 25, setBase := st.prog.pull.setBase } := by
      cases hp : st.prog.pull
      simp_all
    rw [hpull, this, advance_top_band25 _ _ _ hRpe hReps]
  · have : st.prog.pull = { repIndex := 6, band := 35, setBase := st.prog.pull.setBase } := by
      cases hp : st.prog.pull
      simp_all
    rw [hpull, this, advance_top_band35 _ _ _ hRpe hReps]

/-- C7 amended witness: the amended theorem at the band-15 top state with a
20-rep non-hard result. -/
theorem success_at_top_promotes_band_witness :
    (applySessionResult bandPromotionState successResult20).prog.pull =
      { repIndex := 2, band := 25, setBase := 3 } :=
  (success_at_top_promotes_band_or_increments_sets bandPromotionState successResult20
      rfl rfl (by decide) (by decide)).1.1 rfl

/- ==========================================================
   Claim theorems: persistence round trip (C9)
   ========================================================== -/

/-- C9: serializing a well-formed state and reloading it through
`loadState`'s field-defaulting yields a state on which `getTargets` produces
identical output, for every context and every volume-multiplier function. -/
theorem roundtrip_preserves_targets (vm : Int → ℚ) (st : StudyState) (c : Ctx) :
    getTargets vm (loadState (encodeState st)) c = getTargets vm st c := rfl

/- ==========================================================
   String helpers (JS lower-casing and substring tests)
   ========================================================== -/

/-- Lower-case a string character by character (the identifiers and keywords
this program compares are ASCII). -/
def lowerStr (s : String) : String := String.mk (s.data.map Char.toLower)

/-- Whether the first character list starts with the second. -/
def startsWithChars : List Char → List Char → Bool
  | _, [] => true
  | [], _ :: _ => false
  | a :: as, b :: bs => a == b && startsWithChars as bs

/-- Whether the first character list contains the second as a contiguous run. -/
def containsChars : List Char → List Char → Bool
  | [], needle => needle.isEmpty
  | a :: t, needle => startsWithChars (a :: t) needle || containsChars t needle

/-- JS `hay.includes(needle)`. -/
def strIncludes (hay needle : String) : Bool := containsChars hay.data needle.data

/-- `hasAny(text, keywords)`: case-insensitive substring test against a list. -/
def hasAny (text : String) (keys : List String) : Bool :=
  keys.any (fun k => strIncludes (lowerStr text) (lowerStr k))

/-- JS string-or chain (empty string is falsy). -/
def strOr (v : Option String) (d : String) : String := jsOrS v d

/-- JS `if (x) arr.push(x)` for an optional string. -/
def optStrToList (v : Option String) : List String :=
  match v with
  | some s => if s = "" then [] else [s]
  | none => []

/- ==========================================================
   BiomechanicalEngine v2.1 — movement records & classification
   ========================================================== -/

/-- A raw movement-catalog record: every field the engine consults, each
optional exactly where the JS object may lack it (`prescriptionUnit` stands
for `prescription.unit`; the unread `prescription.loadKg` is not modelled). -/
structure RawExBase where
  name : String := ""
  id : Option String := none
  anchor : Option Bool := none
  requiresAnchor : Option Bool := none
  tags : List String := []
  family : Option String := none
  group : Option String := none
  category : Option String := none
  movement_pattern : Option String := none
  hinge : Option Bool := none
  antiRotation : Option Bool := none
  antiExtension : Option Bool := none
  allowedMaxBand : Option Int := none
  prescriptionUnit : Option String := none
  adaptedId : Option String := none
  cues : Option (List String) := none
  note : Option String := none
  deriving DecidableEq, Repr

/-- A raw record together with an optional DB-declared adapted no-anchor
variant (`adaptedVersion`); the engine never reads a variant's own variant,
so one level suffices. -/
structure RawEx extends RawExBase where
  adaptedVersion : Option RawExBase := none
  deriving DecidableEq, Repr

/-- `TrainingKnowledge.classifyDoseType(ex)`: "seconds" for holds,
"mixed" for rep+hold prescriptions, "reps" otherwise. -/
def classifyDoseType (ex : RawEx) : String :=
  let name := lowerStr ex.name
  let tags := ex.tags.map lowerStr
  let has := fun (s : String) => strIncludes name s || tags.contains s
  if has "plank" || has "side plank" || has "hollow" || has "hold" ||
     has "isometric" || has "iso" || has "dead bug hold" ||
     has "bridge hold" || has "wall sit" then "seconds"
  else if has "tenuta" || has "pause" || has "isometria" then "mixed"
  else "reps"

/-- `TrainingKnowledge.normalizeExercisePrescription(ex)`: force the
`seconds` unit for holds and for side planks. -/
def normalizeExercisePrescription (ex : RawEx) : RawEx :=
  let dt := classifyDoseType ex
  let ex1 := if dt == "seconds" then { ex with prescriptionUnit := some "seconds" } else ex
  let n := lowerStr ex1.name
  if strIncludes n "side plank" || strIncludes n "plank laterale" then
    { ex1 with prescriptionUnit := some "seconds" }
  else ex1

/-- BiomechanicalEngine v2.1 `normalizeExercise`: resolve the anchor flag
(explicit field, `anchor` alias, then name keywords), extend the tags with
the declared family/pattern, then normalize the prescription. -/
def normalizeExercise (exRaw : RawEx) : RawEx :=
  let c1 :=
    match exRaw.requiresAnchor, exRaw.anchor with
    | none, some a => { exRaw with requiresAnchor := some a }
    | _, _ => exRaw
  let c2 :=
    match c1.requiresAnchor with
    | none =>
        let kw := hasAny c1.name ["anchor", "door", "porta", "ancor", "fiss"]
        { c1 with requiresAnchor := some kw }
    | some _ => c1
  let newTags := c2.tags ++ optStrToList c2.family ++ optStrToList c2.movement_pattern
  let c3 := { c2 with tags := newTags }
  normalizeExercisePrescription c3

/-- A classified movement profile: the normalized record's fields that later
stages read, plus the derived classification (the JS spread `{...ex0, …}`). -/
structure Classified where
  name : String
  id : Option String
  requiresAnchor : Bool
  tags : List String
  prescriptionUnit : Option String
  adaptedId : Option String
  adaptedVersion : Option RawExBase
  cuesField : Option (List String)
  note : Option String
  doseType : String
  isIsometric : Bool
  family : String
  pattern : String
  hinge : Bool
  antiRotation : Bool
  antiExtension : Bool
  compressiveLoad : Int
  shearLoad : Int
  lumbarStress : Int
  lumbarRisk : Int
  allowedMaxBand : Int
  deriving DecidableEq, Repr

/-- BiomechanicalEngine v2.1 `classify(exRaw)`. -/
def classify (exRaw : RawEx) : Classified :=
  let ex0 := normalizeExercise exRaw
  let name := lowerStr ex0.name
  let doseType := classifyDoseType ex0
  let hinge := ex0.hinge.getD false
    || hasAny name ["rdl", "romanian", "good morning", "hip hinge", "deadlift", "stacco"]
  let antiRotation := ex0.antiRotation.getD false || hasAny name ["pallof", "anti-rot"]
  let antiExtension := ex0.antiExtension.getD false
    || hasAny name ["plank", "hollow", "dead bug", "anti-ext"]
  let isIsometric := doseType == "seconds" || hasAny name ["hold", "isometric", "iso"]
  let family := strOr ex0.family (strOr ex0.group (strOr ex0.category (
    if hasAny name ["plank", "dead bug", "hollow", "core"] then "core"
    else if hasAny name ["squat", "lunge", "deadlift", "rdl", "glute", "hip", "calf", "tibialis"]
      then "posterior"
    else "upper")))
  let pattern := strOr ex0.movement_pattern (
    if hinge then "hinge"
    else if family == "core" && antiRotation then "anti_rotation"
    else if family == "core" && antiExtension then "anti_extension"
    else if family == "core" then "core_general"
    else if family == "upper" && hasAny name ["push", "press", "dip"] then "push"
    else if family == "upper" then "pull"
    else "general")
  -- conservative load heuristics (sequential overrides, as in the source)
  let l1 : Int × Int × Int :=
    if isIsometric then (0, if antiRotation then 0 else 1, 1) else (1, 1, 1)
  let l2 := if hinge then ((2 : Int), (2 : Int), (2 : Int)) else l1
  let l3 := if family == "core" && antiExtension then ((0 : Int), (1 : Int), (1 : Int)) else l2
  let compressive := l3.1
  let shear := l3.2.1
  let lumbar := l3.2.2
  let lumbarRisk := clampI ((lumbar + shear) - (if isIsometric then 1 else 0)) 0 3
  let allowedMaxBand :=
    ex0.allowedMaxBand.getD (if hinge || family == "posterior" then 25 else 35)
  { name := ex0.name
  , id := ex0.id
  , requiresAnchor := ex0.requiresAnchor.getD false
  , tags := ex0.tags
  , prescriptionUnit := ex0.prescriptionUnit
  , adaptedId := ex0.adaptedId
  , adaptedVersion := ex0.adaptedVersion
  , cuesField := ex0.cues
  , note := ex0.note
  , doseType := doseType
  , isIsometric := isIsometric
  , family := family
  , pattern := pattern
  , hinge := hinge
  , antiRotation := antiRotation
  , antiExtension := antiExtension
  , compressiveLoad := compressive
  , shearLoad := shear
  , lumbarStress := lumbar
  , lumbarRisk := lumbarRisk
  , allowedMaxBand := allowedMaxBand }

/-- Lift a stored adapted variant to a full raw record (its own variant field
is never read by the engine). -/
def baseToRaw (b : RawExBase) : RawEx := { toRawExBase := b }

/- ==========================================================
   Per-item safety validation (C8)
   ========================================================== -/

/-- The context fields the validators consult.  Note: the context built by
`getContextForToday` carries no `deload` field, but both validators are
written against an arbitrary context object, so it is represented here. -/
structure ValidateCtx where
  runDay : Bool := false
  fasting : Bool := false
  deload : Bool := false
  band : Option Int := none
  deriving DecidableEq, Repr

/-- `{ ok, reason }` result of a validator. -/
structure ValidateRes where
  ok : Bool
  reason : Option String
  deriving DecidableEq, Repr

/-- BiomechanicalEngine v2.1 `validateExercise(exClassified, ctx)`: fasting
compressive gate, run-day hinge gate, band cap — in that order.  The band
test `c.band != null && ex.allowedMaxBand != null && c.band > allowedMaxBand`
is encoded with `getD` (a classified profile's `allowedMaxBand` is never
null). -/
def validateExercise (ex : Classified) (c : ValidateCtx) : ValidateRes :=
  if c.fasting && ex.compressiveLoad > 1 then
    { ok := false, reason := some "Fasting: esercizio troppo compressivo" }
  else if c.runDay && ex.hinge then
    { ok := false, reason := some "Run day: hinge escluso" }
  else if c.band.getD ex.allowedMaxBand > ex.allowedMaxBand then
    { ok := false, reason := some "Banda troppo alta per esercizio" }
  else { ok := true, reason := none }

/-- BiomechanicalEngine v3.0 `validateExercise(exClassified, ctx)` (the other
revision in the repository): run-day hinge-pattern gate, fasting compressive
gate, deload plyometric gate — and no band cap. -/
def validateExercise_v30 (ex : Classified) (c : ValidateCtx) : ValidateRes :=
  if c.runDay && ex.pattern == "hinge" then
    { ok := false, reason := some "Run day: hinge escluso" }
  else if c.fasting && ex.compressiveLoad > 1 then
    { ok := false, reason := some "Fasting: carico compressivo alto" }
  else if c.deload && ex.pattern == "plyometric" then
    { ok := false, reason := some "Deload: plyometric escluso" }
  else { ok := true, reason := none }

/-- The four-rule rejection predicate as the spec words it ("reject hinge
movements on a run day; reject movements with compressiveLoad > 1 while
fasting; reject plyometric movements during a deload; reject if the requested
resistance exceeds allowedMaxResistance").  This definition follows the
spec's words, for comparison with the code's validators. -/
@[reducible] def specRejectsFourRules (ex : Classified) (c : ValidateCtx) : Prop :=
  (c.runDay = true ∧ (ex.hinge = true ∨ ex.pattern = "hinge")) ∨
  (c.fasting = true ∧ ex.compressiveLoad > 1) ∨
  (c.deload = true ∧ ex.pattern = "plyometric") ∨
  (c.band.getD ex.allowedMaxBand > ex.allowedMaxBand)

/-- A plyometric conditioning movement (classified from its raw record). -/
def plyoRaw : RawEx := { name := "Jump squat plyo", movement_pattern := some "plyometric" }

/-- A plain band row (classified from its raw record). -/
def rowRaw : RawEx := { name := "Band row" }

/-- C8 (counterexample): neither validator implements all four claimed rules.
The v2.1 validator accepts a plyometric movement during a deload (its rules
do not include the deload gate), and the v3.0 validator accepts a request
whose band far exceeds `allowedMaxBand` (its rules do not include the band
cap), although the four-rule spec predicate demands rejection in both
cases. -/
theorem validators_each_miss_one_claimed_rule :
    (validateExercise (classify plyoRaw) { deload := true, band := some 25 }).ok = true ∧
    specRejectsFourRules (classify plyoRaw) { deload := true, band := some 25 } ∧
    (validateExercise_v30 (classify rowRaw) { band := some 99 }).ok = true ∧
    specRejectsFourRules (classify rowRaw) { band := some 99 } := by
  decide

/-- C8 (amended): each validator is a deterministic boolean gate that rejects
iff at least one of THREE independent rules fires — v2.1: compressive load
above 1 while fasting, hinge on a run day, requested band above
`allowedMaxBand`; v3.0: hinge pattern on a run day, compressive load above 1
while fasting, plyometric pattern during a deload.  The deload-plyometric
rule exists only in v3.0 and the band cap only in v2.1; no revision
implements all four rules of the claim. -/
theorem validate_rejects_iff_three_rules (ex : Classified) (c : ValidateCtx) :
    ((validateExercise ex c).ok = false ↔
      ((c.fasting = true ∧ ex.compressiveLoad > 1) ∨
       (c.runDay = true ∧ ex.hinge = true) ∨
       c.band.getD ex.allowedMaxBand > ex.allowedMaxBand)) ∧
    ((validateExercise_v30 ex c).ok = false ↔
      ((c.runDay = true ∧ ex.pattern = "hinge") ∨
       (c.fasting = true ∧ ex.compressiveLoad > 1) ∨
       (c.deload = true ∧ ex.pattern = "plyometric"))) := by
  constructor
  · simp only [validateExercise]
    split_ifs with h1 h2 h3 <;> simp_all
  · simp only [validateExercise_v30]
    split_ifs with h1 h2 h3 <;> simp_all

/- ==========================================================
   TrainingKnowledge v2.0.0 — constants consumed by the engines
   ========================================================== -/

/-- `tempo.defaultSeconds = { down: 2, hold: 1, up: 2 }`. -/
structure Tempo where
  down : Int
  holdPhase : Int
  up : Int
  deriving DecidableEq, Repr

def defaultTempo : Tempo := { down := 2, holdPhase := 1, up := 2 }

/-- `tempo.estimateSetSeconds(reps, tempo)`: `max(0, reps × (down+hold+up))`
(the `|| 0` guards are the identity on present integer phases). -/
def estimateSetSeconds (reps : Int) (t : Option Tempo) : Int :=
  let tp := t.getD defaultTempo
  max 0 (reps * (tp.down + tp.holdPhase + tp.up))

/-- `tempo.estimateHoldSeconds(seconds)`. -/
def estimateHoldSeconds (s : Int) : Int := max 0 s

def tkStopRules : List String :=
  [ "Dolore acuto, irradiato, formicolii: interrompere e regredire."
  , "Perdita di neutral spine ripetuta: riduci banda/reps o cambia esercizio."
  , "Aumento dolore il giorno dopo >2/10 rispetto al baseline: deload nella prossima seduta." ]

def tkUniversalCues : List String :=
  [ "Collo neutro, mento leggermente retratto."
  , "Costole giù (no flare), addome compatto."
  , "Bacino neutro o lieve retroversione nelle tenute (plank)."
  , "Respirazione controllata: espira nella fase di sforzo, non trattenere." ]

def tkCautionPatterns : List String :=
  [ "Flessione lombare ripetuta sotto fatica (hinge che degrada, crunch aggressivi)."
  , "Rotazioni veloci del tronco se perdi controllo (Russian twist pesante)."
  , "Tenute prolungate in flessione (es. buon-morning in postura scarsa)." ]

def tkPreSetChecklist : List String :=
  [ "Piedi stabili, pressione tripode (alluce–mignolo–tallone)."
  , "Colonna neutra: no gobba/no iperlordosi."
  , "Scapole: depresse/retratte quanto basta, collo lungo."
  , "Addome attivo: espira, chiudi costole." ]

def tkHingeChecks : List String :=
  [ "Anche indietro, tibie quasi verticali."
  , "Band vicino al corpo, non tirare con schiena."
  , "Stop se senti la lombare \x27prendere carico\x27 più dei glutei." ]

def tkRowPullChecks : List String :=
  [ "Spalle lontane dalle orecchie."
  , "Tira con gomiti, non con bicipite/cervicale." ]

def tkPushChecks : List String :=
  [ "Costole giù, glutei attivi."
  , "Gomiti 30–45° (non flare)." ]

def tkPlankChecks : List String :=
  [ "Retroversione bacino leggera, addome compatto (fonte)" ]

/-- `Array.from(new Set(l))`: de-duplicate keeping first occurrences. -/
def uniqStr (l : List String) : List String :=
  l.foldl (fun acc x => if acc.contains x then acc else acc ++ [x]) []

/-- SessionEngine's `uniq(arr)`: drop falsy entries, then de-duplicate. -/
def uniqJs (l : List String) : List String :=
  uniqStr (l.filter (fun s => s ≠ ""))

/- ==========================================================
   BiomechanicalEngine v2.1 — cues, warnings, no-anchor adaptation
   ========================================================== -/

/-- `getCues(exClassified)`: universal cues, pre-set checklist,
pattern-specific checks, the record's own cues and note; de-duplicated,
falsy-filtered, first 10. -/
def getCues (ex : Classified) : List String :=
  let cs := tkUniversalCues ++ tkPreSetChecklist
    ++ (if ex.pattern == "hinge" then tkHingeChecks else [])
    ++ (if ex.pattern == "pull" then tkRowPullChecks else [])
    ++ (if ex.pattern == "push" then tkPushChecks else [])
    ++ (if hasAny ex.name ["plank", "side plank"] then tkPlankChecks else [])
    ++ ex.cuesField.getD []
    ++ optStrToList ex.note
  ((uniqStr cs).filter (fun s => s ≠ "")).take 10

/-- `getWarnings(exClassified, ctx)`: profile warnings, the caution patterns,
and the run-day hinge caution; de-duplicated, first 8. -/
def getWarnings (ex : Classified) (c : ValidateCtx) : List String :=
  let w := (if ex.isIsometric then ["Unità: secondi (tenuta). Qualità > durata."] else [])
    ++ (if ex.hinge then ["Hinge: stop se perdi neutro lombare; riduci ROM/banda."] else [])
    ++ (if ex.antiExtension then ["Anti-estensione: costole giù, evita iperestensione lombare."] else [])
    ++ (if ex.antiRotation then ["Anti-rotazione: bacino fermo, niente compensi."] else [])
    ++ (if ex.requiresAnchor then ["Richiede appiglio: usare variante no-anchor proposta."] else [])
    ++ tkCautionPatterns
    ++ (if c.runDay && ex.hinge then ["Giorno corsa: hinge/hinge pesanti sconsigliati."] else [])
  (uniqStr w).take 8

/-- `{ ok, exercise, note }` result of `adaptNoAnchor`. -/
structure AdaptRes where
  ok : Bool
  exercise : Option Classified := none
  note : Option String := none
  deriving DecidableEq, Repr

/-- Stable ascending insertion by `lumbarRisk` (JS `Array.sort` with the
`a.lumbarRisk - b.lumbarRisk` comparator is stable). -/
def insertByRisk (x : Classified) : List Classified → List Classified
  | [] => [x]
  | y :: ys => if x.lumbarRisk < y.lumbarRisk then x :: y :: ys else y :: insertByRisk x ys

def sortByRisk (l : List Classified) : List Classified := l.foldr insertByRisk []

/-- BiomechanicalEngine v2.1 `adaptNoAnchor(exClassified, allClassified)`:
keep anchor-free movements; otherwise try the DB-declared variant, the
`adaptedId` reference, pattern-based keyword replacements from the anchor-free
pool, then the same-family lowest-lumbar-risk fallback. -/
def adaptNoAnchor (ex : Classified) (allClassified : List Classified) : AdaptRes :=
  if !ex.requiresAnchor then { ok := true, exercise := some ex, note := none }
  else
    match ex.adaptedVersion with
    | some av =>
        let a := classify (baseToRaw av)
        { ok := true, exercise := some { a with requiresAnchor := false }
        , note := some "Variante no-anchor (adaptedVersion)" }
    | none =>
      let byId :=
        match ex.adaptedId with
        | some aid => if aid ≠ "" then allClassified.find? (fun (e : Classified) => e.id == some aid) else none
        | none => none
      match byId with
      | some found =>
          { ok := true, exercise := some found, note := some "Variante no-anchor (adaptedId)" }
      | none =>
        let pool : List Classified := allClassified.filter (fun e => !e.requiresAnchor)
        let antiRotPick :=
          if ex.antiRotation then
            (pool.filter (fun e => e.family == "core"
              && (e.antiRotation || hasAny e.name ["side plank", "bird dog", "dead bug"]))).head?
          else none
        match antiRotPick with
        | some c => { ok := true, exercise := some c, note := some "Sostituzione no-anchor (anti-rot)" }
        | none =>
          let pullPick :=
            if ex.pattern == "pull" then
              (pool.filter (fun e => e.family == "upper"
                && hasAny e.name ["row", "rematore", "pull-apart", "high row", "rear fly", "face pull"])).head?
            else none
          match pullPick with
          | some c => { ok := true, exercise := some c, note := some "Sostituzione no-anchor (pull)" }
          | none =>
            let pushPick :=
              if ex.pattern == "push" then
                (pool.filter (fun e =>
                  hasAny e.name ["push-up", "floor press", "press", "pike push", "shoulder press"])).head?
              else none
            match pushPick with
            | some c => { ok := true, exercise := some c, note := some "Sostituzione no-anchor (push)" }
            | none =>
              let safe := sortByRisk (pool.filter (fun e =>
                e.family == ex.family && decide (e.lumbarRisk ≤ 2)))
              match safe.head? with
              | some c =>
                  { ok := true, exercise := some c
                  , note := some "Sostituzione no-anchor (fallback safe)" }
              | none =>
                  { ok := false, exercise := none
                  , note := some "Nessuna variante no-anchor disponibile" }

/- ==========================================================
   SessionEngine v3.0 — seeded deterministic RNG
   ========================================================== -/

/-- One FNV-1a step: 32-bit `(h ^ c) * 16777619` (`Math.imul` keeps the low
32 bits; the final `>>> 0`/hex round trip is the identity on the pattern). -/
def fnv1aStep (h c : Nat) : Nat := ((h ^^^ c) * 16777619) % 4294967296

/-- `hashStr(str)` over the string's code units (ASCII here). -/
def hashStrNat (s : String) : Nat :=
  s.data.foldl (fun h c => fnv1aStep h c.toNat) 2166136261

/-- JS 32-bit arithmetic shift right by 17 of an unsigned pattern:
sign-extend the top bit. -/
def jsSar17 (x : Nat) : Nat :=
  x / 131072 + (if x ≥ 2147483648 then 4294967296 - 32768 else 0)

/-- One xorshift32 step of the generator returned by `makeRng` (the entry
reduction `% 2^32` is the identity on the reachable states, which are always
32-bit patterns). -/
def rngStep (x : Nat) : Nat :=
  let y := x % 4294967296
  let a := y ^^^ (y * 8192 % 4294967296)
  let b := a ^^^ jsSar17 a
  b ^^^ (b * 32 % 4294967296)

/-- `makeRng(seedStr)`'s initial internal state:
`0x811c9dc5 ^ parseInt(hashStr(seedStr), 16)`. -/
def makeRngState (seed : String) : Nat := 2166136261 ^^^ hashStrNat seed

/-- `pickOne(arr, rand)`: `null` on an empty array (without consuming the
generator); otherwise advance the generator and index with
`Math.floor(rand() * arr.length)`. -/
def pickOne {α : Type} (arr : List α) (x : Nat) : Option α × Nat :=
  if arr.isEmpty then (none, x)
  else
    let x1 := rngStep x
    (arr.get? (x1 * arr.length / 4294967296), x1)

theorem rngStep_lt (x : Nat) : rngStep x < 4294967296 := by
  have h32 : (4294967296 : ℕ) = 2 ^ 32 := by norm_num
  unfold rngStep
  have hy : x % 4294967296 < 4294967296 := Nat.mod_lt _ (by norm_num)
  have ha : x % 4294967296 ^^^ (x % 4294967296 * 8192 % 4294967296) < 4294967296 := by
    rw [h32] at hy ⊢
    exact Nat.xor_lt_two_pow hy (h32 ▸ Nat.mod_lt _ (by norm_num))
  have hs : jsSar17 (x % 4294967296 ^^^ (x % 4294967296 * 8192 % 4294967296)) < 4294967296 := by
    unfold jsSar17
    split_ifs with h
    · have : (x % 4294967296 ^^^ (x % 4294967296 * 8192 % 4294967296)) / 131072 < 32768 := by
        apply Nat.div_lt_of_lt_mul
        calc x % 4294967296 ^^^ (x % 4294967296 * 8192 % 4294967296)
            < 4294967296 := ha
          _ ≤ 131072 * 32768 := by norm_num
      omega
    · calc (x % 4294967296 ^^^ (x % 4294967296 * 8192 % 4294967296)) / 131072
          ≤ x % 4294967296 ^^^ (x % 4294967296 * 8192 % 4294967296) := Nat.div_le_self _ _
        _ < 4294967296 := ha
  have hb : (x % 4294967296 ^^^ (x % 4294967296 * 8192 % 4294967296))
      ^^^ jsSar17 (x % 4294967296 ^^^ (x % 4294967296 * 8192 % 4294967296)) < 4294967296 := by
    rw [h32] at ha hs ⊢
    exact Nat.xor_lt_two_pow ha hs
  rw [h32] at hb ⊢
  exact Nat.xor_lt_two_pow hb (h32 ▸ Nat.mod_lt _ (by norm_num))

/-- A `some` result of `pickOne` is a member of the array. -/
theorem pickOne_mem {α : Type} {arr : List α} {x : Nat} {a : α}
    (h : (pickOne arr x).1 = some a) : a ∈ arr := by
  unfold pickOne at h
  by_cases he : arr.isEmpty
  · simp [he] at h
  · simp only [he, if_false] at h
    exact List.get?_mem h

/-- On a nonempty array `pickOne` always returns an element. -/
theorem pickOne_isSome {α : Type} (arr : List α) (x : Nat) (h : arr ≠ []) :
    ((pickOne arr x).1).isSome := by
  unfold pickOne
  have he : arr.isEmpty = false := by simpa [List.isEmpty_iff] using h
  simp only [he, Bool.false_eq_true, if_false]
  have hlen : 0 < arr.length := List.length_pos.mpr h
  have hidx : rngStep x * arr.length / 4294967296 < arr.length := by
    apply Nat.div_lt_of_lt_mul
    exact (Nat.mul_lt_mul_right hlen).mpr (rngStep_lt x)
  simp [List.getElem?_eq_getElem hidx]

/- ==========================================================
   SessionEngine v3.0 — prescribed items and the time model
   ========================================================== -/

/-- A `PrescribedItem` of a session block (the union of the fields the block
builders emit; absent JS fields are `none`). -/
structure PrescribedItem where
  kind : String
  family : Option String := none
  exId : Option String := none
  name : String
  pattern : Option String := none
  unit : String
  sets : Int
  reps : Option Int := none
  seconds : Option Int := none
  band : Option Int := none
  restSec : Int
  tempo : Option Tempo := none
  transitionSec : Int
  cues : List String := []
  warnings : List String := []
  noAnchor : Option Bool := none
  note : Option String := none
  deriving DecidableEq, Repr

/-- `estimateExerciseSeconds(item)`:
`sets × active + max(0, sets−1) × rest + transition`, with the JS `|| `
defaults (`sets || 1`, `seconds/reps || 0`, and `transitionSec || 8` — a
zero transition becomes 8). -/
def estimateExerciseSeconds (it : PrescribedItem) : Int :=
  let sets := jsOr0 it.sets 1
  let rest := jsOr0 it.restSec 0
  let transition := jsOr0 it.transitionSec 8
  let active :=
    if it.unit == "seconds" then estimateHoldSeconds (jsOrI it.seconds 0)
    else estimateSetSeconds (jsOrI it.reps 0) it.tempo
  sets * active + max 0 (sets - 1) * rest + transition

def sumSeconds (l : List PrescribedItem) : Int :=
  l.foldl (fun acc x => acc + estimateExerciseSeconds x) 0

/- ==========================================================
   Dosing templates (TrainingKnowledge) and block builders
   ========================================================== -/

/-- One dosing-template example (`{ item, unit, range }`). -/
structure TplExample where
  item : String
  unit : String
  rangeLo : Int
  rangeHi : Int
  deriving DecidableEq, Repr

/-- A dosing template: the canonical `durationMin` keys (optional) and the
example list.  (The string/number duration keys that `durationMinutes` would
also probe never occur in this knowledge base.) -/
structure Tpl where
  durationMinFor25 : Option Int := none
  durationMinFor30 : Option Int := none
  durationMinFor35 : Option Int := none
  examples : List TplExample := []
  deriving DecidableEq, Repr

def tkWarmupTpl : Tpl :=
  { durationMinFor25 := some 3, durationMinFor35 := some 5
  , examples :=
    [ { item := "Circonduzioni spalle con bastone/elastico", unit := "reps", rangeLo := 8, rangeHi := 12 }
    , { item := "Cat-cow / mobilità colonna controllata", unit := "reps", rangeLo := 8, rangeHi := 12 }
    , { item := "Hip hinge patterning", unit := "reps", rangeLo := 8, rangeHi := 12 } ] }

def tkMobilityTpl : Tpl :=
  { durationMinFor25 := some 2, durationMinFor35 := some 3
  , examples :=
    [ { item := "Psoas stretch in affondo, busto dritto", unit := "seconds", rangeLo := 20, rangeHi := 40 }
    , { item := "Basculamento bacino + antero/retroversione", unit := "reps", rangeLo := 8, rangeHi := 12 } ] }

def tkCoreControlTpl : Tpl :=
  { durationMinFor25 := some 2, durationMinFor35 := some 3
  , examples :=
    [ { item := "Plank", unit := "seconds", rangeLo := 15, rangeHi := 30 }
    , { item := "Side plank", unit := "seconds", rangeLo := 15, rangeHi := 30 }
    , { item := "Bird dog (controllo)", unit := "reps", rangeLo := 6, rangeHi := 10 } ] }

def tkCooldownTpl : Tpl := { durationMinFor25 := some 2, durationMinFor35 := some 3 }

def tkCooldownPhases : List String := ["inspira", "trattieni", "espira", "vuoto"]

/-- The `targets.warmup`/`targets.mobility` records built by StudyEngine v3.1
(`{style, cycles}` / `{style, count}`): truthy, but with no `durationMin` and
no `examples`. -/
def targetsBlockTpl : Tpl := {}

/-- `durationMinutes(tpl, minutes, fallbackMin)`. -/
def durationMinutes (tpl : Option Tpl) (minutes : Int) (fb : Int) : Int :=
  match tpl with
  | none => fb
  | some t =>
      if t.durationMinFor25 = none ∧ t.durationMinFor30 = none ∧ t.durationMinFor35 = none then fb
      else
        let k := if minutes ≥ 35 then t.durationMinFor35
          else if minutes ≥ 30 then t.durationMinFor30
          else t.durationMinFor25
        k.getD fb

/-- Map a template example to an executable item (midpoint of the range). -/
def exampleItem (kind : String) (restSec transitionSec : Int) (e : TplExample) : PrescribedItem :=
  let mid := jround (((e.rangeLo + e.rangeHi : Int) : ℚ) / 2)
  { kind := kind
  , name := e.item
  , unit := e.unit
  , sets := 1
  , reps := if e.unit == "reps" then some mid else none
  , seconds := if e.unit == "seconds" then some mid else none
  , restSec := restSec
  , tempo := some defaultTempo
  , transitionSec := transitionSec }

/-- `{ minutesTarget, items }` returned by a block builder. -/
structure BlockBuild where
  minutesTarget : Int
  items : List PrescribedItem
  deriving DecidableEq, Repr

/-- `buildWarmupBlock(targets, ctx)`: the template is `targets.warmup` (always
truthy), which carries no `durationMin` (fallback 3) and no examples, so the
generic example mapping produces no items. -/
def buildWarmupBlock (minutes : Int) : BlockBuild :=
  let tpl := targetsBlockTpl
  { minutesTarget := durationMinutes (some tpl) minutes 3
  , items := (tpl.examples.take 3).map (exampleItem "warmup" 0 6) }

/-- `buildMobilityBlock(targets, ctx)`: same shape as the warm-up builder
(template `targets.mobility`, fallback 2 minutes, two examples). -/
def buildMobilityBlock (minutes : Int) : BlockBuild :=
  let tpl := targetsBlockTpl
  { minutesTarget := durationMinutes (some tpl) minutes 2
  , items := (tpl.examples.take 2).map (exampleItem "mobility" 0 6) }

/-- `buildCoreControlBlock(targets, ctx)`: `targets.coreControl` does not
exist, so the TrainingKnowledge template applies; one item only. -/
def buildCoreControlBlock (minutes : Int) : BlockBuild :=
  let e :=
    match tkCoreControlTpl.examples with
    | e :: _ => e
    | [] => { item := "Plank", unit := "seconds", rangeLo := 15, rangeHi := 30 }
  { minutesTarget := durationMinutes (some tkCoreControlTpl) minutes 1
  , items := [ exampleItem "core_control" 10 6 e ] }

/-- `buildCooldownBlock(targets, ctx)`: `targets.breathingCooldown` does not
exist, so the TrainingKnowledge breathing protocol applies. -/
def buildCooldownBlock (minutes : Int) : BlockBuild :=
  let perPhase := jround (((3 : ℚ) + 4) / 2)
  let cycleSec := perPhase * (tkCooldownPhases.length : Int)
  { minutesTarget := durationMinutes (some tkCooldownTpl) minutes 2
  , items :=
    [ { kind := "cooldown"
      , name := "Respirazione diaframmatica (protocollo)"
      , unit := "seconds"
      , sets := 1
      , seconds := some (cycleSec * 3)
      , restSec := 0
      , transitionSec := 0
      , note := some ("Fasi: " ++ String.intercalate " / " tkCooldownPhases
          ++ " — " ++ toString perPhase ++ "s ciascuna") } ] }

/- ==========================================================
   SessionEngine v3.0 — strength selection
   ========================================================== -/

/-- The context fields the session generator reads (`minutes`, `runDay`,
`fasting`, `rpe3`, `noAnchors`; the day key enters through the `todayISO()`
fallback and the equipment list is never consulted). -/
structure PlanCtx where
  minutes : Int
  runDay : Bool
  fasting : Bool
  rpe3 : Int
  noAnchors : Bool
  deriving DecidableEq, Repr

def toPlanCtx (c : Ctx) : PlanCtx :=
  { minutes := c.minutes, runDay := c.runDay, fasting := c.fasting
  , rpe3 := c.rpe3, noAnchors := c.noAnchors }

/-- `(e.pattern === "pull" || e.family === "upper") && !e.hinge`. -/
def pullPoolOf (cands : List Classified) : List Classified :=
  cands.filter (fun e => (e.pattern == "pull" || e.family == "upper") && !e.hinge)

/-- `(e.pattern === "push" || e.family === "upper") && !e.hinge`. -/
def pushPoolOf (cands : List Classified) : List Classified :=
  cands.filter (fun e => (e.pattern == "push" || e.family == "upper") && !e.hinge)

/-- Posterior base pool: family, hinge flag, or name keywords
(`/glute|hip|calf|tibialis|hinge|deadlift|rdl/i`). -/
def postPoolBase (cands : List Classified) : List Classified :=
  cands.filter (fun e => e.family == "posterior" || e.hinge
    || hasAny e.name ["glute", "hip", "calf", "tibialis", "hinge", "deadlift", "rdl"])

/-- Run-day posterior pool, first stage: lumbar-safe non-hinge posterior
movements matching `/calf|polpacc|tibialis|cavigl|ankle|glute bridge|bridge|hip/i`
(a classified profile's `lumbarRisk` is never null). -/
def postPoolRun1 (cands : List Classified) : List Classified :=
  cands.filter (fun e => e.family == "posterior" && !e.hinge && decide (e.lumbarRisk ≤ 2)
    && hasAny e.name ["calf", "polpacc", "tibialis", "cavigl", "ankle", "glute bridge", "bridge", "hip"])

/-- Run-day posterior pool, fallback stage. -/
def postPoolRun2 (cands : List Classified) : List Classified :=
  cands.filter (fun e => e.family == "posterior" && !e.hinge && decide (e.lumbarRisk ≤ 2))

/-- The posterior pool after the run-day / lumbar-safety narrowing. -/
def postPoolOf (cands : List Classified) (runDay : Bool) : List Classified :=
  if runDay then
    let p1 := postPoolRun1 cands
    if p1.isEmpty then postPoolRun2 cands else p1
  else
    let base := postPoolBase cands
    let safe := base.filter (fun e => decide (e.lumbarRisk ≤ 2))
    if safe.isEmpty then base else safe

/-- `ex.id || ex.name`, the de-duplication key. -/
def keyOf (e : Classified) : String := jsOrS e.id e.name

/-- `take(ex)`: `null` if the key was already used, else mark it used. -/
def takeStep (used : List String) (ex : Option Classified) :
    Option Classified × List String :=
  match ex with
  | none => (none, used)
  | some e => if used.contains (keyOf e) then (none, used) else (some e, used ++ [keyOf e])

/-- `adapt(ex)` inside `chooseStrengthExercises`: under the no-anchor
constraint run `adaptExerciseNoAnchor` and keep its exercise when it
succeeds, otherwise fall back to the original. -/
def adaptChoice (noAnchors : Bool) (cands : List Classified) (ex : Option Classified) :
    Option Classified :=
  match ex with
  | none => none
  | some e =>
      if !noAnchors then some e
      else
        let res := adaptNoAnchor e cands
        if res.ok then
          match res.exercise with
          | some a => some a
          | none => some e
        else some e

/-- `pickOne(pool, rand) || pickOne(fallback, rand)`: the fallback consumes
the generator only when the first pick returned `null`. -/
def pickSlot {α : Type} (pool fallback : List α) (x : Nat) : Option α × Nat :=
  let a := pickOne pool x
  if a.1.isSome then a else pickOne fallback a.2

/-- The three-stage posterior pick:
`pickOne(postPool) || pickOne(posterior family) || pickOne(candidates)`. -/
def pickSlot2 {α : Type} (pool fb1 fb2 : List α) (x : Nat) : Option α × Nat :=
  let a := pickOne pool x
  if a.1.isSome then a
  else
    let b := pickOne fb1 a.2
    if b.1.isSome then b else pickOne fb2 b.2

/-- `take(ex) || pickOne(pool minus used keys, rand)`: attempt the
de-duplicating take; on failure re-pick from the pool minus the used keys
(the re-picked movement is not added to the used set — the source does not
call `take` on it).  Returns (choice, used set, generator state). -/
def dedupSlot (pool : List Classified) (used : List String) (cand : Option Classified)
    (x : Nat) : Option Classified × List String × Nat :=
  let t := takeStep used cand
  match t.1 with
  | some e => (some e, t.2, x)
  | none =>
      let r := pickOne (pool.filter (fun e => !(t.2.contains (keyOf e)))) x
      (r.1, t.2, r.2)

/-- The body of `chooseStrengthExercises(pool, targets, ctx, rand)` over the
context fields it reads (`runDay`, `noAnchors`; `filterNoAnchor` keeps the
whole pool).  Returns the chosen (pull, push, posterior) and the advanced
generator state; the generator is consumed in the source's order: the three
primary picks (with fallbacks), then any de-duplicating re-picks. -/
def chooseCore (cands : List Classified) (runDay noAnchors : Bool) (x0 : Nat) :
    (Option Classified × Option Classified × Option Classified) × Nat :=
  let pullPool := pullPoolOf cands
  let pushPool := pushPoolOf cands
  let postPool := postPoolOf cands runDay
  -- deterministically pick (with whole-catalog fallbacks)
  let s1 := pickSlot pullPool cands x0
  let s2 := pickSlot pushPool cands s1.2
  let s3 := pickSlot2 postPool (cands.filter (fun e => e.family == "posterior")) cands s2.2
  -- de-duplicate by id/name
  let d1 := dedupSlot pullPool [] s1.1 s3.2
  let d2 := dedupSlot pushPool d1.2.1 s2.1 d1.2.2
  let d3 := dedupSlot postPool d2.2.1 s3.1 d2.2.2
  ((adaptChoice noAnchors cands d1.1, adaptChoice noAnchors cands d2.1,
    adaptChoice noAnchors cands d3.1), d3.2.2)

/-- `chooseStrengthExercises(pool, targets, ctx, rand)`. -/
def chooseStrengthExercises (cands : List Classified) (ctx : PlanCtx) (x0 : Nat) :
    (Option Classified × Option Classified × Option Classified) × Nat :=
  chooseCore cands ctx.runDay ctx.noAnchors x0

/- ==========================================================
   SessionEngine v3.0 — packing the strength block
   ========================================================== -/

/-- `pack(ex, t, familyLabel)`: validate against the context and band (on
rejection cap the band to `allowedMaxBand` and drop one set); attach cues and
warnings; choose the dose unit; emit the prescribed item.  The `safeTarget`
pre-step is the identity in this model since the v3.1 targets always carry
finite `sets/reps/band/rest`. -/
def packItem (ex : Option Classified) (t : StrengthTarget) (familyLabel : String)
    (ctx : PlanCtx) : Option PrescribedItem :=
  match ex with
  | none => none
  | some e =>
      let vres := validateExercise e
        { runDay := ctx.runDay, fasting := ctx.fasting, band := some t.band }
      let safeBand := min t.band (jsOr0 e.allowedMaxBand t.band)
      let t' :=
        if vres.ok = false then
          { t with band := safeBand, sets := max 1 (jsOr0 t.sets 2 - 1) }
        else t
      let cs := getCues e
      let ws := getWarnings e { runDay := ctx.runDay, fasting := ctx.fasting }
      let unit :=
        match e.prescriptionUnit with
        | some u => if u = "" then (if e.doseType == "seconds" then "seconds" else "reps") else u
        | none => if e.doseType == "seconds" then "seconds" else "reps"
      some
        { kind := "strength"
        , family := some familyLabel
        , exId := e.id
        , name := e.name
        , pattern := some e.pattern
        , unit := unit
        , sets := t'.sets
        , reps := if unit == "reps" then some t'.reps else none
        , seconds := if unit == "seconds" then some 25 else none
        , band := if unit == "reps" then some t'.band else none
        , restSec := t'.rest
        , tempo := some defaultTempo
        , transitionSec := 10
        , cues := uniqJs cs
        , warnings := uniqJs ws
        , noAnchor := some ctx.noAnchors }

/-- `buildStrengthBlock(exAll, targets, ctx, rand)`. -/
def buildStrengthBlock (exAll : List Classified) (targets : Targets) (ctx : PlanCtx)
    (x0 : Nat) : List PrescribedItem × Nat :=
  let (chosen, x1) := chooseStrengthExercises exAll ctx x0
  let items := [ packItem chosen.1 targets.pull "pull" ctx
               , packItem chosen.2.1 targets.push "push" ctx
               , packItem chosen.2.2 targets.posterior "posterior" ctx ].reduceOption
  (items, x1)

/- ==========================================================
   SessionEngine v3.0 — time closure
   ========================================================== -/

/-- The five session blocks. -/
structure Blocks where
  warmup : List PrescribedItem
  mobility : List PrescribedItem
  strength : List PrescribedItem
  coreControl : List PrescribedItem
  cooldown : List PrescribedItem
  deriving DecidableEq, Repr

def totalSecOf (b : Blocks) : Int :=
  sumSeconds b.warmup + sumSeconds b.mobility + sumSeconds b.strength +
    sumSeconds b.coreControl + sumSeconds b.cooldown

/-- `reduceSetsOfFamily(fam)`: on the first strength item of the family, drop
one set unless it is already at 1; `none` when no reduction happened. -/
def reduceSetsFam (fam : String) : List PrescribedItem → Option (List PrescribedItem)
  | [] => none
  | it :: rest =>
      if it.family == some fam then
        if jsOr0 it.sets 1 ≤ 1 then none
        else some ({ it with sets := it.sets - 1 } :: rest)
      else (reduceSetsFam fam rest).map (it :: ·)

/-- Shave 5 s of rest (floor 20) off the first strength item resting > 20 s. -/
def reduceRest : List PrescribedItem → Option (List PrescribedItem)
  | [] => none
  | it :: rest =>
      if jsOr0 it.restSec 0 > 20 then some ({ it with restSec := max 20 (it.restSec - 5) } :: rest)
      else (reduceRest rest).map (it :: ·)

/-- One trimming action in priority order: posterior sets, push sets, pull
sets, pop a warm-up extra, pop a mobility extra, shave rest. -/
def closeStep (b : Blocks) : Option Blocks :=
  match reduceSetsFam "posterior" b.strength with
  | some s => some { b with strength := s }
  | none =>
  match reduceSetsFam "push" b.strength with
  | some s => some { b with strength := s }
  | none =>
  match reduceSetsFam "pull" b.strength with
  | some s => some { b with strength := s }
  | none =>
  if b.warmup.length > 1 then some { b with warmup := b.warmup.dropLast }
  else if b.mobility.length > 1 then some { b with mobility := b.mobility.dropLast }
  else
    match reduceRest b.strength with
    | some s => some { b with strength := s }
    | none => none

/-- The bounded trimming loop (`guard = 50`). -/
def closeLoop : Nat → Blocks → Int → Blocks
  | 0, b, _ => b
  | fuel + 1, b, targetSec =>
      if totalSecOf b > targetSec then
        match closeStep b with
        | some b1 => closeLoop fuel b1 targetSec
        | none => b
      else b

/-- `closeToMinutes(session, targetMinutes)`. -/
def closeToMinutes (b : Blocks) (targetMinutes : Int) : Blocks :=
  let targetSec := targetMinutes * 60
  if totalSecOf b ≤ targetSec then b
  else closeLoop 50 b targetSec

/-- `setsOf(fam)`. -/
def setsOfFam (fam : String) (l : List PrescribedItem) : Int :=
  match l.find? (fun it => it.family == some fam) with
  | some it => jsOr0 it.sets 0
  | none => 0

/-- `addSet(fam, maxSets)`. -/
def addSetFam (fam : String) (maxSets : Int) : List PrescribedItem → Option (List PrescribedItem)
  | [] => none
  | it :: rest =>
      if it.family == some fam then
        if jsOr0 it.sets 1 ≥ maxSets then none
        else some ({ it with sets := it.sets + 1 } :: rest)
      else (addSetFam fam maxSets rest).map (it :: ·)

/-- One filling action: pull up to 6, push up to 6, posterior up to
`min(4, max(1, ⌊pull sets × 1.2⌋))` (the knowledge base's cap is 1.2). -/
def fillStep (b : Blocks) : Option Blocks :=
  match addSetFam "pull" 6 b.strength with
  | some s => some { b with strength := s }
  | none =>
  match addSetFam "push" 6 b.strength with
  | some s => some { b with strength := s }
  | none =>
    let pullSets := setsOfFam "pull" b.strength
    let maxPost := max 1 (floor12 pullSets)
    match addSetFam "posterior" (min 4 maxPost) b.strength with
    | some s => some { b with strength := s }
    | none => none

/-- The bounded filling loop (`guard = 40`); the JS threshold
`targetSec * 0.92` is the exact rational `targetSec · 23/25` (both sides of
the integer comparison agree with the double computation). -/
def fillLoop : Nat → Blocks → Int → Blocks
  | 0, b, _ => b
  | fuel + 1, b, targetSec =>
      if (totalSecOf b : ℚ) < (targetSec : ℚ) * (92/100) then
        match fillStep b with
        | some b1 => fillLoop fuel b1 targetSec
        | none => b
      else b

/-- `fillStrengthIfTooShort(session, targetMinutes)`. -/
def fillStrengthIfTooShort (b : Blocks) (targetMinutes : Int) : Blocks :=
  let targetSec := targetMinutes * 60
  if (totalSecOf b : ℚ) ≥ (targetSec : ℚ) * (92/100) then b
  else fillLoop 40 b targetSec

/- ==========================================================
   SessionEngine v3.0 — session assembly
   ========================================================== -/

/-- BiomechanicalEngine v2.1 `validateSession(session)`: the per-item loop
requires an `it.exercise` field that the v3.0 `pack` output never carries, so
every strength item is skipped, the set sums stay 0, no cap/hinge warning can
fire, and the result is the de-duplicated stop-rule list (first 10). -/
def validateSessionWarnings (_ : Blocks) : List String :=
  (uniqStr tkStopRules).take 10

/-- The session `meta` record (`estimatedMinutesTenths` models
`Number((sec/60).toFixed(1))` in tenths of a minute). -/
structure SessionMeta where
  version : String
  dayKey : Int
  minutes : Int
  runDay : Bool
  fasting : Bool
  rpe3 : Int
  deload : Bool
  multMilli : Int
  seed : String
  sessionWarnings : List String
  estimatedSeconds : Int
  estimatedMinutesTenths : Int
  deriving DecidableEq, Repr

/-- The returned `SessionPlan`. -/
structure Session where
  meta : SessionMeta
  targets : Targets
  blocks : Blocks
  deriving DecidableEq, Repr

/-- The body of `generateSession(exerciseDB, userFlags)` after the context is
built, over the context fields it reads.  `today` is the wall clock's
`todayISO()`: the day key comes from it because `targets.meta` carries no
`dayKey` field, so the fallback always applies. -/
def generateSessionPlanned (vm : Int → ℚ) (db : List RawEx) (st : StudyState)
    (today : Int) (p : PlanCtx) : Session :=
  let targets := getTargetsFrom vm st p.minutes p.runDay p.fasting p.rpe3
  let dayKey := today
  let seedStr := String.intercalate "|"
    [ toString dayKey, toString p.minutes
    , (if p.runDay then "run" else "norun")
    , (if p.fasting then "fast" else "nofast")
    , toString p.rpe3
    , (if p.noAnchors then "noanchor" else "anchor") ]
  let x0 := makeRngState seedStr
  let exAll := db.map classify
  let warm := buildWarmupBlock p.minutes
  let mob := buildMobilityBlock p.minutes
  let coreCtrl := buildCoreControlBlock p.minutes
  let cool := buildCooldownBlock p.minutes
  let (strengthItems, _) := buildStrengthBlock exAll targets p x0
  let blocks0 : Blocks :=
    { warmup := warm.items, mobility := mob.items, strength := strengthItems
    , coreControl := coreCtrl.items, cooldown := cool.items }
  -- close time: first fill if too short, then trim if too long
  let blocks1 := fillStrengthIfTooShort blocks0 p.minutes
  let blocks2 := closeToMinutes blocks1 p.minutes
  let est := totalSecOf blocks2
  { meta :=
    { version := "3.0"
    , dayKey := dayKey
    , minutes := p.minutes
    , runDay := p.runDay
    , fasting := p.fasting
    , rpe3 := p.rpe3
    , deload := targets.deload
    , multMilli := jsOr0 targets.multMilli 1000
    , seed := seedStr
    , sessionWarnings := validateSessionWarnings blocks2
    , estimatedSeconds := est
    , estimatedMinutesTenths := jround ((est : ℚ) * 10 / 60) }
  , targets := targets
  , blocks := blocks2 }

/-- `generateSession` for a fixed progression state and built context. -/
def generateSessionWithCtx (vm : Int → ℚ) (db : List RawEx) (st : StudyState)
    (today : Int) (c : Ctx) : Session :=
  generateSessionPlanned vm db st today (toPlanCtx c)

/- ==========================================================
   Claim theorems: planner determinism (C2)
   ========================================================== -/

/-- C2: for a fixed progression state and catalog, two generation calls whose
contexts agree on the day key, duration, runDay, fasting, effort level and
no-anchor flag produce identical plans (the seeded generator is a pure
function of the seed string; the equipment list is never consulted). -/
theorem generateSession_deterministic (vm : Int → ℚ) (db : List RawEx)
    (st : StudyState) (today : Int) (ca cb : Ctx)
    (_hd : ca.dayKey = cb.dayKey) (hm : ca.minutes = cb.minutes)
    (hr : ca.runDay = cb.runDay) (hf : ca.fasting = cb.fasting)
    (hrp : ca.rpe3 = cb.rpe3) (hna : ca.noAnchors = cb.noAnchors) :
    generateSessionWithCtx vm db st today ca = generateSessionWithCtx vm db st today cb := by
  unfold generateSessionWithCtx
  have h : toPlanCtx ca = toPlanCtx cb := by
    simp [toPlanCtx, hm, hr, hf, hrp, hna]
  rw [h]

/-- A concrete volume-multiplier instantiation for the closed evaluations. -/
def vmOne : Int → ℚ := fun _ => 1

/-- A hinge-only single-movement catalog entry for the closed evaluations. -/
def rdlRaw : RawEx := { name := "Stacco rumeno RDL" }

def detCtxA : Ctx :=
  { dayKey := 20000, minutes := 25, runDay := false, fasting := false
  , rpe3 := 2, noAnchors := true, equipment := ["bodyweight", "band"] }

def detCtxB : Ctx := { detCtxA with equipment := ["rope"] }

/-- C2 witness: two contexts identical except for the equipment list yield
the same plan on a concrete state and catalog. -/
theorem generateSession_deterministic_witness :
    generateSessionWithCtx vmOne [rdlRaw] defaultState 20000 detCtxA =
      generateSessionWithCtx vmOne [rdlRaw] defaultState 20000 detCtxB :=
  generateSession_deterministic vmOne [rdlRaw] defaultState 20000 detCtxA detCtxB
    rfl rfl rfl rfl rfl rfl

/- ==========================================================
   Claim theorems: safety gating (C3)
   ========================================================== -/

/-- A run-day fasting context under which the single-hinge catalog violates
both halves of the claimed gating. -/
def ctxRunFast : Ctx :=
  { dayKey := 20000, minutes := 25, runDay := true, fasting := true
  , rpe3 := 2, noAnchors := true, equipment := ["band"] }

section RatEval
attribute [local semireducible] Rat.add Rat.mul Rat.inv Rat.sub Rat.ofScientific

set_option maxRecDepth 10000 in
/-- C3 (counterexample): with a catalog whose only movement is a hinge
(classified `compressiveLoad = 2`), the plan generated with `runDay = true`
and `fasting = true` still carries that hinge in its strength block — the
family pools are empty, the fallback picks from the whole catalog, and the
fasting validate failure only lowers the band and drops a set. -/
theorem runday_fasting_plan_contains_compressive_hinge :
    ctxRunFast.runDay = true ∧ ctxRunFast.fasting = true ∧
    ((generateSessionWithCtx vmOne [rdlRaw] defaultState 20000 ctxRunFast).blocks.strength.map
        (fun i => i.pattern)) = [some "hinge"] ∧
    (classify rdlRaw).compressiveLoad = 2 ∧ (classify rdlRaw).hinge = true := by
  refine ⟨rfl, rfl, by decide, by decide, by decide⟩

end RatEval

theorem adaptChoice_false (cands : List Classified) (y : Option Classified) :
    adaptChoice false cands y = y := by
  cases y <;> simp [adaptChoice]

theorem takeStep_some {used : List String} {cand : Option Classified} {e : Classified}
    (h : (takeStep used cand).1 = some e) : cand = some e := by
  cases cand with
  | none => simp [takeStep] at h
  | some c =>
      unfold takeStep at h
      dsimp only at h
      split_ifs at h with hc
      simp_all

theorem dedupSlot_pred {P : Classified → Prop} {pool : List Classified}
    {used : List String} {cand : Option Classified} {x : Nat}
    (hpool : ∀ e ∈ pool, P e) (hcand : ∀ e, cand = some e → P e) :
    ∀ e, (dedupSlot pool used cand x).1 = some e → P e := by
  intro e h
  simp only [dedupSlot] at h
  rcases ht : (takeStep used cand).1 with _ | c
  · rw [ht] at h
    dsimp only at h
    have hmem := pickOne_mem h
    exact hpool e (List.mem_of_mem_filter hmem)
  · rw [ht] at h
    dsimp only at h
    simp only [Option.some.injEq] at h
    subst h
    exact hcand _ (takeStep_some ht)

theorem pickSlot_pred {α : Type} {P : α → Prop} {pool fallback : List α} {x : Nat}
    (hne : pool ≠ []) (hpool : ∀ e ∈ pool, P e) :
    ∀ e, (pickSlot pool fallback x).1 = some e → P e := by
  intro e h
  unfold pickSlot at h
  have hs := pickOne_isSome pool x hne
  rw [if_pos hs] at h
  exact hpool e (pickOne_mem h)

theorem pickSlot2_pred {α : Type} {P : α → Prop} {pool fb1 fb2 : List α} {x : Nat}
    (hne : pool ≠ []) (hpool : ∀ e ∈ pool, P e) :
    ∀ e, (pickSlot2 pool fb1 fb2 x).1 = some e → P e := by
  intro e h
  unfold pickSlot2 at h
  have hs := pickOne_isSome pool x hne
  rw [if_pos hs] at h
  exact hpool e (pickOne_mem h)

theorem mem_pullPool_hinge {cands : List Classified} {e : Classified}
    (h : e ∈ pullPoolOf cands) : e.hinge = false := by
  unfold pullPoolOf at h
  have := List.of_mem_filter h
  simp only [Bool.and_eq_true, Bool.not_eq_true'] at this
  exact this.2

theorem mem_pushPool_hinge {cands : List Classified} {e : Classified}
    (h : e ∈ pushPoolOf cands) : e.hinge = false := by
  unfold pushPoolOf at h
  have := List.of_mem_filter h
  simp only [Bool.and_eq_true, Bool.not_eq_true'] at this
  exact this.2

theorem mem_postPoolRun_hinge {cands : List Classified} {e : Classified}
    (h : e ∈ postPoolOf cands true) : e.hinge = false := by
  unfold postPoolOf at h
  simp only [if_pos] at h
  by_cases h1 : (postPoolRun1 cands).isEmpty
  · rw [if_pos h1] at h
    unfold postPoolRun2 at h
    have := List.of_mem_filter h
    simp only [Bool.and_eq_true, Bool.not_eq_true'] at this
    exact this.1.2
  · rw [if_neg h1] at h
    unfold postPoolRun1 at h
    have := List.of_mem_filter h
    simp only [Bool.and_eq_true, Bool.not_eq_true'] at this
    exact this.1.1.2

theorem postPoolOf_run_ne {cands : List Classified}
    (h3 : postPoolRun2 cands ≠ []) : postPoolOf cands true ≠ [] := by
  unfold postPoolOf
  simp only [if_pos]
  by_cases h1 : (postPoolRun1 cands).isEmpty
  · rw [if_pos h1]; exact h3
  · rw [if_neg h1]
    simpa [List.isEmpty_iff] using h1

/-- C3 (amended): the pull/push pools and the run-day posterior pools exclude
hinge-flagged movements, so whenever those pools are nonempty (and the
no-anchor adaptation is off) the run-day selection returns only non-hinge
movements; when a pool is empty the fallback draws from the whole catalog and
may select a hinge.  The selection never reads the fasting flag at all, and a
fasting validate failure in `pack` keeps the item (capping its band and
dropping one set) rather than removing it. -/
theorem strength_selection_gating :
    (∀ (cands : List Classified) (p1 p2 : PlanCtx) (x : Nat),
      p1.runDay = p2.runDay → p1.noAnchors = p2.noAnchors →
      chooseStrengthExercises cands p1 x = chooseStrengthExercises cands p2 x) ∧
    (∀ (e : Classified) (t : StrengthTarget) (fam : String) (p : PlanCtx),
      (packItem (some e) t fam p).isSome = true) ∧
    (∀ (cands : List Classified) (p : PlanCtx) (x : Nat),
      p.runDay = true → p.noAnchors = false →
      pullPoolOf cands ≠ [] → pushPoolOf cands ≠ [] → postPoolRun2 cands ≠ [] →
      (∀ e, (chooseStrengthExercises cands p x).1.1 = some e → e.hinge = false) ∧
      (∀ e, (chooseStrengthExercises cands p x).1.2.1 = some e → e.hinge = false) ∧
      (∀ e, (chooseStrengthExercises cands p x).1.2.2 = some e → e.hinge = false)) := by
  refine ⟨?_, ?_, ?_⟩
  · intro cands p1 p2 x hr hna
    unfold chooseStrengthExercises
    rw [hr, hna]
  · intro e t fam p
    simp [packItem]
  · intro cands p x hr hna h1 h2 h3
    unfold chooseStrengthExercises
    rw [hr, hna]
    simp only [chooseCore, adaptChoice_false]
    refine ⟨?_, ?_, ?_⟩
    · exact dedupSlot_pred (fun e he => mem_pullPool_hinge he)
        (pickSlot_pred h1 (fun e he => mem_pullPool_hinge he))
    · exact dedupSlot_pred (fun e he => mem_pushPool_hinge he)
        (pickSlot_pred h2 (fun e he => mem_pushPool_hinge he))
    · exact dedupSlot_pred (fun e he => mem_postPoolRun_hinge he)
        (pickSlot2_pred (postPoolOf_run_ne h3) (fun e he => mem_postPoolRun_hinge he))

/-- A no-hinge two-movement catalog for the selection witness. -/
def rowRawSel : RawEx := { name := "Band row" }

def bridgeRawSel : RawEx := { name := "Glute bridge" }

def selCands : List Classified := [classify rowRawSel, classify bridgeRawSel]

def pRunA : PlanCtx :=
  { minutes := 25, runDay := true, fasting := true, rpe3 := 2, noAnchors := false }

def pRunB : PlanCtx := { pRunA with fasting := false }

/-- C3 amended witness: on a concrete two-movement catalog the selection is
fasting-independent, `pack` keeps a fasting-rejected item, and the run-day
pull choice is not hinge-flagged. -/
theorem strength_selection_gating_witness :
    chooseStrengthExercises selCands pRunA 7 = chooseStrengthExercises selCands pRunB 7 ∧
    (packItem (some (classify rdlRaw)) { sets := 3, reps := 10, band := 15, rest := 35 }
        "pull" pRunA).isSome = true ∧
    (classify rowRawSel).hinge = false :=
  ⟨strength_selection_gating.1 selCands pRunA pRunB 7 rfl rfl,
   strength_selection_gating.2.1 (classify rdlRaw)
     { sets := 3, reps := 10, band := 15, rest := 35 } "pull" pRunA,
   (strength_selection_gating.2.2 selCands pRunA 7 rfl rfl (by decide) (by decide)
       (by decide)).1 (classify rowRawSel) (by decide)⟩

end Workout
